import Mathlib

/-!
Shallow embedding of the jbuberel/spotify_client Go library (src/lib.go)
and of the playlist-duplication workflow of its example server
(src/example/server.go).

The remote HTTP service is a parameter: every embedded operation takes the
observable outcome of each HTTP exchange (transport error, or a body that
either decodes into the typed response or fails to decode) as input and
mirrors the Go control flow on it.  `resp.Unmarshal` is `json.Unmarshal`
on the body: on failure it still may have filled the decodable fields of
the freshly `new`-allocated response struct (a type error leaves a
partial fill; a syntax error at the start leaves the zero value), and
the Go code goes on to use that struct state regardless.  The embedding
therefore models a decode failure as carrying the left-over envelope
state, arbitrary up to what `json.Unmarshal` can produce, with the zero
value as one instance.  Go `int32` counters stay far below overflow in
every behavior the library can exhibit, so they are embedded as `Int`.
-/

/- ### Data model (src/lib.go, lines 30-126) -/

structure TokenResponse where
  accessToken : String
  tokenType : String
  expiresIn : Int
  refreshToken : String
deriving DecidableEq

structure PlaylistOwner where
  href : String
  id : String
deriving DecidableEq

structure Playlist where
  href : String
  id : String
  name : String
  owner : PlaylistOwner
deriving DecidableEq

/-- The zero value of `Playlist`, as produced by the Go `new(Playlist)` allocation. -/
def Playlist.zero : Playlist := ⟨"", "", "", ⟨"", ""⟩⟩

structure Album where
  albumType : String
  href : String
  id : String
  name : String
deriving DecidableEq

structure Artist where
  href : String
  id : String
  name : String
deriving DecidableEq

structure Track where
  id : String
  href : String
  name : String
  album : Album
  artists : List Artist
deriving DecidableEq

/-- A tracklist page item wraps the track one level deep (`PlaylistTrack`). -/
structure PlaylistTrack where
  track : Track
deriving DecidableEq

/-- Page envelope for playlist listing (`PlaylistResponse`). -/
structure PlaylistResponse where
  href : String
  limit : Int
  offset : Int
  next : String
  previous : String
  total : Int
  items : List Playlist
deriving DecidableEq

/-- The zero value of `PlaylistResponse`, as left by a completely failed
decode (e.g. a syntax error) into a freshly `new`-allocated struct: no
items, total 0. -/
def PlaylistResponse.zero : PlaylistResponse := ⟨"", 0, 0, "", "", 0, []⟩

/-- Page envelope for track listing (`TracklistResponse`). -/
structure TracklistResponse where
  href : String
  items : List PlaylistTrack
  limit : Int
  offset : Int
  next : String
  previous : String
  total : Int
deriving DecidableEq

/-- The zero value of `TracklistResponse`, as left by a completely failed
decode (e.g. a syntax error) into a freshly `new`-allocated struct: no
items, total 0. -/
def TracklistResponse.zero : TracklistResponse := ⟨"", [], 0, 0, "", "", 0⟩

structure CreatePlaylistRequest where
  name : String
  public : Bool
deriving DecidableEq

structure AddTrackToPlaylistResponse where
  snapshotId : String
deriving DecidableEq

/-- The zero value of `AddTrackToPlaylistResponse`, as produced by the Go
`new(AddTrackToPlaylistResponse)` allocation. -/
def AddTrackToPlaylistResponse.zero : AddTrackToPlaylistResponse := ⟨""⟩

/- ### The observable outcome of one HTTP exchange -/

/-- What one HTTP GET/POST looks like to the caller: either the transport
errs (napping returns `err != nil`), or a body arrives and is run through
`json.Unmarshal` into a freshly allocated response struct.  `page decodeOk
env` records whether the decode succeeded together with the struct state
it left behind: the decoded envelope when `decodeOk` is `true`, and the
partial fill of a failed decode when it is `false` (the zero value after
a syntax error, possibly decoded fields such as a positive `total` or a
nonempty `items` after a type error).  The Go code only logs the decode
error and uses the struct state either way. -/
inductive PageResult (ε : Type) where
  | transportError (msg : String)
  | page (decodeOk : Bool) (env : ε)
deriving DecidableEq

/-- Result of a paginated fetch, together with the offsets at which GET
requests were issued.  `ranOut` is a model artifact: the loop was still
running when the supplied finite page sequence was exhausted (the real
loop would issue yet another request). -/
inductive FetchOutcome (α : Type) where
  | success (items : List α) (reqOffsets : List Nat)
  | fetchError (msg : String) (reqOffsets : List Nat)
  | ranOut (acc : List α) (reqOffsets : List Nat)
deriving DecidableEq

/- ### GetAccessToken (src/lib.go, lines 131-164) -/

/-- The body read from the token endpoint response: Go checks
`if body != nil`, so the model distinguishes a nil byte slice from bytes
whose JSON decoding succeeds or fails. -/
inductive TokenBody where
  | nilBody
  | bytes (decoded : Except String TokenResponse)

/-- Outcome of `GetAccessToken`.  `nilDeref` records the run-time fault on
the transport-error path: the `if err != nil` branch is an empty
placeholder (`// handle error`), so the code falls through to
`resp.Body.Close()` with `resp == nil` and faults instead of returning. -/
inductive TokenOutcome where
  | nilDeref
  | token (t : TokenResponse)
  | failure (msg : String)
deriving DecidableEq

/-- GetAccessToken: single form-encoded POST to the token endpoint, no
retry.  Mirrors src/lib.go lines 131-164 on the observed POST outcome. -/
def GetAccessToken (post : Except String TokenBody) : TokenOutcome :=
  match post with
  | .error _ => .nilDeref
  | .ok .nilBody => .failure "Empty response body"
  | .ok (.bytes (.ok t)) => .token t
  | .ok (.bytes (.error e)) => .failure e

/- ### Paginated fetchers (src/lib.go, lines 197-242 and 362-407) -/

/-- The pagination loop of `GetUserPlaylists` (src/lib.go lines 206-239):
one page result is consumed per GET; a transport error returns
immediately with a nil collection; the envelope state left by
`Unmarshal` — decoded, or the partial fill of a failed decode, whose
error is only logged — has its items appended in response order; the
loop stops as soon as the accumulated count reaches the total reported
by that envelope state, else advances `offset += limit`. -/
def getUserPlaylistsLoop (limit : Nat) :
    List (PageResult PlaylistResponse) → List Playlist → Nat → List Nat →
      FetchOutcome Playlist
  | [], playlistItems, _, reqs => .ranOut playlistItems reqs
  | .transportError msg :: _, _, offset, reqs => .fetchError msg (reqs ++ [offset])
  | .page _ env :: rest, playlistItems, offset, reqs =>
      let playlistResponse := env
      let acc := playlistItems ++ playlistResponse.items
      if playlistResponse.total ≤ (acc.length : Int) then
        .success acc (reqs ++ [offset])
      else
        getUserPlaylistsLoop limit rest acc (offset + limit) (reqs ++ [offset])

/-- GetUserPlaylists: paginated fetch of the playlists of the user, starting at
offset 0 with the hard-coded limit 5. -/
def GetUserPlaylists (pages : List (PageResult PlaylistResponse)) :
    FetchOutcome Playlist :=
  getUserPlaylistsLoop 5 pages [] 0 []

/-- The pagination loop of `GetTracksForPlaylist` (src/lib.go lines
371-405): identical to the playlist loop except that each page item wraps
its track one level deep, and `item.Track` is appended. -/
def getTracksLoop (limit : Nat) :
    List (PageResult TracklistResponse) → List Track → Nat → List Nat →
      FetchOutcome Track
  | [], tracks, _, reqs => .ranOut tracks reqs
  | .transportError msg :: _, _, offset, reqs => .fetchError msg (reqs ++ [offset])
  | .page _ env :: rest, tracks, offset, reqs =>
      let tracklistResponse := env
      let acc := tracks ++ tracklistResponse.items.map fun item => item.track
      if tracklistResponse.total ≤ (acc.length : Int) then
        .success acc (reqs ++ [offset])
      else
        getTracksLoop limit rest acc (offset + limit) (reqs ++ [offset])

/-- GetTracksForPlaylist: paginated fetch of the tracks of a playlist, starting
at offset 0 with the hard-coded limit 5. -/
def GetTracksForPlaylist (pages : List (PageResult TracklistResponse)) :
    FetchOutcome Track :=
  getTracksLoop 5 pages [] 0 []

/- ### GetPlaylistInfo and CreatePlaylist (src/lib.go, lines 247-310) -/

/-- GetPlaylistInfo (src/lib.go lines 247-273): a transport error is
returned with the zero playlist; a decode failure is only logged and the
struct state `Unmarshal` left (zero-valued or partially decoded) is
returned with a nil error. -/
def GetPlaylistInfo (resp : PageResult Playlist) : Except String Playlist :=
  match resp with
  | .transportError msg => .error msg
  | .page _ env => .ok env

/-- CreatePlaylist (src/lib.go lines 277-310): one POST with a
`{name, public}` payload (returned as the first component so that callers
can observe the issued request); a transport error is returned as an
error, while a decode failure of the response body is only logged and the
struct state `Unmarshal` left (zero-valued or partially decoded) is
returned with a nil error. -/
def CreatePlaylist (playlistName : String) (playlistPublic : Bool)
    (resp : PageResult Playlist) : CreatePlaylistRequest × Except String Playlist :=
  (⟨playlistName, playlistPublic⟩,
    match resp with
    | .transportError msg => .error msg
    | .page _ env => .ok env)

/- ### AddTracksToPlaylist (src/lib.go, lines 313-358) -/

/-- Outcome of one batch POST to the track endpoint of the playlist: transport
error, a body that fails to decode, or a decoded snapshot response. -/
inductive BatchResult where
  | transportError (msg : String)
  | decodeFailure (msg : String)
  | accepted (resp : AddTrackToPlaylistResponse)

/-- The URI list built for one batch: `"spotify:track:" + t.Id` per track,
in order (src/lib.go lines 335-338). -/
def trackUris (batch : List Track) : List String :=
  batch.map fun t => "spotify:track:" ++ t.id

deriving instance DecidableEq for Except

/-- What a call to `AddTracksToPlaylist` produces: the Go return value
(`AddTrackToPlaylistResponse{}` plus error modeled as `Except`) together
with the URI lists of the POSTs that were issued. -/
structure AddTracksOutcome where
  result : Except String AddTrackToPlaylistResponse
  requests : List (List String)
deriving DecidableEq

/-- The batching loop of `AddTracksToPlaylist` (src/lib.go lines 327-353):
`for i := 0; i < len(tracks); i += 100` with batch `tracks[i:x]`,
`x = min(i+100, len(tracks))` — i.e. take 100 then recurse on drop 100.
A failed POST or a failed decode of its response aborts with the zero
response and the error; on success the decoded response replaces the
running `addTrackResponse`, and after the last batch that response is
returned. -/
def addTracksLoop (srv : Nat → BatchResult) :
    List Track → Nat → AddTrackToPlaylistResponse → List (List String) →
      AddTracksOutcome
  | [], _, addTrackResponse, reqs => ⟨.ok addTrackResponse, reqs⟩
  | t :: ts, batchIdx, _, reqs =>
      let uris := trackUris ((t :: ts).take 100)
      match srv batchIdx with
      | .transportError msg => ⟨.error msg, reqs ++ [uris]⟩
      | .decodeFailure msg => ⟨.error msg, reqs ++ [uris]⟩
      | .accepted resp =>
          addTracksLoop srv ((t :: ts).drop 100) (batchIdx + 1) resp
            (reqs ++ [uris])
termination_by l _ _ _ => l.length
decreasing_by simp [List.length_drop]; omega

/-- AddTracksToPlaylist: batched POSTs of at most 100 track URIs each,
starting from the `new`-allocated zero response. -/
def AddTracksToPlaylist (srv : Nat → BatchResult) (tracks : List Track) :
    AddTracksOutcome :=
  addTracksLoop srv tracks 0 AddTrackToPlaylistResponse.zero []

/-- The consecutive batches of at most 100 tracks that the loop slices
out of the track list. -/
def chunks100 : List Track → List (List Track)
  | [] => []
  | t :: ts => (t :: ts).take 100 :: chunks100 ((t :: ts).drop 100)
termination_by l => l.length
decreasing_by simp [List.length_drop]; omega

/- ### The duplication workflow (src/example/server.go, lines 173-209) -/

/-- The remote world a duplication run interacts with: the outcome of the
`GetPlaylistInfo` GET, the page sequence served to
`GetTracksForPlaylist`, the outcome of the `CreatePlaylist` POST, and the
per-batch outcomes of the track-write POSTs. -/
structure World where
  playlistInfoResp : PageResult Playlist
  trackPages : List (PageResult TracklistResponse)
  createResp : PageResult Playlist
  batchServer : Nat → BatchResult

/-- The observable effect of one duplication run: the create requests
issued, the track-write requests issued, and the snapshot id rendered on
the page at the end (`none` when the handler returned early). -/
structure DuplicateOutcome where
  createCalls : List CreatePlaylistRequest
  writeCalls : List (List String)
  snapshotShown : Option String
deriving DecidableEq

/-- The tail of the duplication handler after the source fetches
(src/example/server.go lines 197-206): the destination playlist is
created (its error is discarded — `err` is overwritten unchecked), then
`AddTracksToPlaylist` runs on whatever track list the fetch produced; a
write failure returns early, otherwise the snapshot id is rendered. -/
def duplicateWriteSteps (w : World) (sourceName : String) (tracks : List Track) :
    DuplicateOutcome :=
  let created := CreatePlaylist ("Copy of " ++ sourceName) false w.createResp
  let added := AddTracksToPlaylist w.batchServer tracks
  match added.result with
  | .error _ => ⟨[created.1], added.requests, none⟩
  | .ok r => ⟨[created.1], added.requests, some r.snapshotId⟩

/-- duplicatePlaylist (src/example/server.go lines 173-209).  Only the
`GetPlaylistInfo` error and the `AddTracksToPlaylist` error are checked;
the errors of `GetTracksForPlaylist` and `CreatePlaylist` are discarded,
so the handler proceeds past those failures (with a nil track list, resp.
a zero destination playlist).  `none` is the model artifact of a track
fetch that outran the supplied finite page sequence. -/
def duplicatePlaylist (w : World) : Option DuplicateOutcome :=
  match GetPlaylistInfo w.playlistInfoResp with
  | .error _ => some ⟨[], [], none⟩
  | .ok playlist =>
    match GetTracksForPlaylist w.trackPages with
    | .ranOut _ _ => none
    | .success ts _ => some (duplicateWriteSteps w playlist.name ts)
    | .fetchError _ _ => some (duplicateWriteSteps w playlist.name [])

/- ### Helper notions for the specifications -/

/-- The pages a server hands out when every page decodes successfully. -/
def okPages {ε : Type} (envs : List ε) : List (PageResult ε) :=
  envs.map fun e => .page true e

/-- Concatenation, in server order, of the playlist items of a page
sequence. -/
def playlistItemsOf (envs : List PlaylistResponse) : List Playlist :=
  (envs.map fun e => e.items).flatten

/-- Concatenation, in server order, of the (unwrapped) tracks of a
tracklist page sequence. -/
def trackItemsOf (envs : List TracklistResponse) : List Track :=
  (envs.map fun e => e.items.map fun item => item.track).flatten

/-- The ascending offsets `offset, offset+5, …` of `n` consecutive page
requests. -/
def offsetsFrom (offset : Nat) : Nat → List Nat
  | 0 => []
  | n + 1 => offset :: offsetsFrom (offset + 5) n

@[simp] theorem playlistItemsOf_nil : playlistItemsOf [] = [] := rfl

@[simp] theorem playlistItemsOf_cons (e : PlaylistResponse)
    (l : List PlaylistResponse) :
    playlistItemsOf (e :: l) = e.items ++ playlistItemsOf l := by
  simp [playlistItemsOf]

@[simp] theorem trackItemsOf_nil : trackItemsOf [] = [] := rfl

@[simp] theorem trackItemsOf_cons (e : TracklistResponse)
    (l : List TracklistResponse) :
    trackItemsOf (e :: l) =
      (e.items.map fun item => item.track) ++ trackItemsOf l := by
  simp [trackItemsOf]

theorem offsetsFrom_eq_range :
    ∀ (n offset : Nat),
      offsetsFrom offset n = (List.range n).map fun k => offset + 5 * k := by
  intro n
  induction n with
  | zero => intro offset; simp [offsetsFrom]
  | succ m ih =>
    intro offset
    rw [offsetsFrom, List.range_succ_eq_map, List.map_cons, List.map_map, ih]
    refine congrArg₂ List.cons (by omega) (List.map_congr_left ?_)
    intro a _
    simp [Function.comp]
    omega

/-- One-step unfolding of the playlist pagination loop at a decoded-or-not
page, with the rest of the page sequence left opaque. -/
theorem getUserPlaylistsLoop_page (limit : Nat) (decodeOk : Bool)
    (env : PlaylistResponse) (rest : List (PageResult PlaylistResponse))
    (acc : List Playlist) (offset : Nat) (reqs : List Nat) :
    getUserPlaylistsLoop limit (.page decodeOk env :: rest) acc offset reqs =
      if env.total ≤ ((acc ++ env.items).length : Int) then
        .success (acc ++ env.items) (reqs ++ [offset])
      else
        getUserPlaylistsLoop limit rest (acc ++ env.items) (offset + limit)
          (reqs ++ [offset]) := by
  simp [getUserPlaylistsLoop]

/-- One-step unfolding of the tracklist pagination loop at a decoded-or-not
page, with the rest of the page sequence left opaque. -/
theorem getTracksLoop_page (limit : Nat) (decodeOk : Bool)
    (env : TracklistResponse) (rest : List (PageResult TracklistResponse))
    (acc : List Track) (offset : Nat) (reqs : List Nat) :
    getTracksLoop limit (.page decodeOk env :: rest) acc offset reqs =
      if env.total ≤
          ((acc ++ (env.items.map fun item => item.track)).length : Int) then
        .success (acc ++ (env.items.map fun item => item.track))
          (reqs ++ [offset])
      else
        getTracksLoop limit rest
          (acc ++ (env.items.map fun item => item.track)) (offset + limit)
          (reqs ++ [offset]) := by
  simp [getTracksLoop]

/-- Pagination loop invariant for `GetUserPlaylists`: over a nonempty page
sequence that all decodes, reports one consistent total `T`, stays
strictly below `T` before its final page and reaches it exactly there,
the loop appends the items of every page in order and requests ascending
offsets. -/
theorem getUserPlaylistsLoop_ok (T : Int) :
    ∀ (envs : List PlaylistResponse) (acc : List Playlist) (offset : Nat)
      (reqs : List Nat),
      envs ≠ [] →
      (∀ e ∈ envs, e.total = T) →
      (∀ j, j + 1 < envs.length →
        (acc.length : Int) + ((playlistItemsOf (envs.take (j + 1))).length : Int) < T) →
      (acc.length : Int) + ((playlistItemsOf envs).length : Int) = T →
      getUserPlaylistsLoop 5 (okPages envs) acc offset reqs =
        .success (acc ++ playlistItemsOf envs)
          (reqs ++ offsetsFrom offset envs.length) := by
  intro envs
  induction envs with
  | nil => intro acc offset reqs hne; exact absurd rfl hne
  | cons e rest ih =>
    intro acc offset reqs _ htot hlt hsum
    have he : e.total = T := htot e (List.mem_cons_self e rest)
    have hok : okPages (e :: rest) = .page true e :: okPages rest := rfl
    rw [hok, getUserPlaylistsLoop_page]
    cases rest with
    | nil =>
      have hlen : ((acc ++ e.items).length : Int) = T := by
        simp only [playlistItemsOf_cons, playlistItemsOf_nil,
          List.append_nil] at hsum
        simp only [List.length_append]
        push_cast
        omega
      rw [if_pos (by rw [he, hlen])]
      simp [offsetsFrom]
    | cons r rs =>
      have h0 : (acc.length : Int) + (e.items.length : Int) < T := by
        have := hlt 0 (by simp)
        simpa using this
      have hcond : ¬ e.total ≤ ((acc ++ e.items).length : Int) := by
        rw [he]
        simp only [List.length_append, not_le]
        push_cast
        omega
      rw [if_neg hcond]
      rw [ih (acc ++ e.items) (offset + 5) (reqs ++ [offset])
        (by simp)
        (fun e2 h2 => htot e2 (List.mem_cons_of_mem e h2))
        (by
          intro j hj
          have := hlt (j + 1) (by simpa using Nat.succ_lt_succ hj)
          simp only [List.take_succ_cons, playlistItemsOf_cons,
            List.length_append] at this ⊢
          push_cast at this ⊢
          omega)
        (by
          simp only [playlistItemsOf_cons, List.length_append] at hsum ⊢
          push_cast at hsum ⊢
          omega)]
      simp [offsetsFrom, List.append_assoc]

/-- Pagination loop invariant for `GetTracksForPlaylist`, the exact
analogue of `getUserPlaylistsLoop_ok` with the one-level track
unwrapping. -/
theorem getTracksLoop_ok (T : Int) :
    ∀ (envs : List TracklistResponse) (acc : List Track) (offset : Nat)
      (reqs : List Nat),
      envs ≠ [] →
      (∀ e ∈ envs, e.total = T) →
      (∀ j, j + 1 < envs.length →
        (acc.length : Int) + ((trackItemsOf (envs.take (j + 1))).length : Int) < T) →
      (acc.length : Int) + ((trackItemsOf envs).length : Int) = T →
      getTracksLoop 5 (okPages envs) acc offset reqs =
        .success (acc ++ trackItemsOf envs)
          (reqs ++ offsetsFrom offset envs.length) := by
  intro envs
  induction envs with
  | nil => intro acc offset reqs hne; exact absurd rfl hne
  | cons e rest ih =>
    intro acc offset reqs _ htot hlt hsum
    have he : e.total = T := htot e (List.mem_cons_self e rest)
    have hok : okPages (e :: rest) = .page true e :: okPages rest := rfl
    rw [hok, getTracksLoop_page]
    cases rest with
    | nil =>
      have hlen : ((acc ++ e.items.map fun item => item.track).length : Int) = T := by
        simp only [trackItemsOf_cons, trackItemsOf_nil, List.append_nil] at hsum
        simp only [List.length_append, List.length_map]
        push_cast
        simp only [List.length_map] at hsum
        omega
      rw [if_pos (by rw [he, hlen])]
      simp [offsetsFrom]
    | cons r rs =>
      have h0 : (acc.length : Int) + (e.items.length : Int) < T := by
        have h1 := hlt 0 (by simp)
        simp only [List.take_succ_cons, List.take_zero, trackItemsOf_cons,
          trackItemsOf_nil, List.append_nil, List.length_map] at h1
        exact h1
      have hcond : ¬ e.total ≤
          ((acc ++ e.items.map fun item => item.track).length : Int) := by
        rw [he]
        simp only [List.length_append, List.length_map, not_le]
        push_cast
        omega
      rw [if_neg hcond]
      rw [ih (acc ++ e.items.map fun item => item.track) (offset + 5)
        (reqs ++ [offset])
        (by simp)
        (fun e2 h2 => htot e2 (List.mem_cons_of_mem e h2))
        (by
          intro j hj
          have := hlt (j + 1) (by simpa using Nat.succ_lt_succ hj)
          simp only [List.take_succ_cons, trackItemsOf_cons,
            List.length_append, List.length_map] at this ⊢
          push_cast at this ⊢
          omega)
        (by
          simp only [trackItemsOf_cons, List.length_append,
            List.length_map] at hsum ⊢
          push_cast at hsum ⊢
          omega)]
      simp [offsetsFrom, List.append_assoc]

/-- The batch slicing produces `⌈n/100⌉` batches. -/
theorem chunks100_length :
    ∀ l : List Track, (chunks100 l).length = (l.length + 99) / 100 := by
  intro l
  induction l using chunks100.induct with
  | case1 => simp [chunks100]
  | case2 t ts ih =>
    rw [chunks100]
    simp only [List.length_cons, List.length_drop] at ih ⊢
    omega

/-- The batch slicing loses and reorders nothing. -/
theorem chunks100_flatten : ∀ l : List Track, (chunks100 l).flatten = l := by
  intro l
  induction l using chunks100.induct with
  | case1 => simp [chunks100]
  | case2 t ts ih =>
    rw [chunks100]
    simp only [List.drop_succ_cons] at ih
    simp [ih, List.take_append_drop]

/-- Every batch holds at most 100 tracks. -/
theorem chunks100_mem_length :
    ∀ (l : List Track), ∀ c ∈ chunks100 l, c.length ≤ 100 := by
  intro l
  induction l using chunks100.induct with
  | case1 => simp [chunks100]
  | case2 t ts ih =>
    intro c hc
    rw [chunks100] at hc
    rcases List.mem_cons.mp hc with h | h
    · subst h
      exact List.length_take_le 100 (t :: ts)
    · exact ih c h

/-- Every track of every batch comes from the original list. -/
theorem chunks100_mem_subset :
    ∀ (l : List Track), ∀ c ∈ chunks100 l, ∀ x ∈ c, x ∈ l := by
  intro l
  induction l using chunks100.induct with
  | case1 => simp [chunks100]
  | case2 t ts ih =>
    intro c hc x hx
    rw [chunks100] at hc
    rcases List.mem_cons.mp hc with h | h
    · exact List.take_subset 100 (t :: ts) (h ▸ hx)
    · exact List.drop_subset 100 (t :: ts) (ih c h x hx)

/-- A nonempty track list slices into at least one batch. -/
theorem chunks100_ne_nil (t : Track) (ts : List Track) :
    chunks100 (t :: ts) ≠ [] := by
  rw [chunks100]
  exact List.cons_ne_nil _ _

/-- One-step unfolding of the batching loop on a nonempty track list, with
the remaining tracks left opaque. -/
theorem addTracksLoop_cons (srv : Nat → BatchResult) (t : Track)
    (ts : List Track) (batchIdx : Nat) (last : AddTrackToPlaylistResponse)
    (reqs : List (List String)) :
    addTracksLoop srv (t :: ts) batchIdx last reqs =
      match srv batchIdx with
      | .transportError msg =>
          ⟨.error msg, reqs ++ [trackUris ((t :: ts).take 100)]⟩
      | .decodeFailure msg =>
          ⟨.error msg, reqs ++ [trackUris ((t :: ts).take 100)]⟩
      | .accepted resp =>
          addTracksLoop srv ((t :: ts).drop 100) (batchIdx + 1) resp
            (reqs ++ [trackUris ((t :: ts).take 100)]) := by
  rw [addTracksLoop]

/-- On a server that accepts every batch, the loop issues one POST per
batch, in order, and ends carrying the response of the last accepted
batch (or the incoming response when there is no batch). -/
theorem addTracksLoop_allOk (f : Nat → AddTrackToPlaylistResponse) :
    ∀ (ts : List Track) (batchIdx : Nat) (last : AddTrackToPlaylistResponse)
      (reqs : List (List String)),
      addTracksLoop (fun k => .accepted (f k)) ts batchIdx last reqs =
        ⟨.ok (if ts.length = 0 then last
              else f (batchIdx + (chunks100 ts).length - 1)),
         reqs ++ (chunks100 ts).map trackUris⟩ := by
  intro ts
  induction ts using chunks100.induct with
  | case1 =>
    intro batchIdx last reqs
    simp [addTracksLoop, chunks100]
  | case2 t ts ih =>
    intro batchIdx last reqs
    rw [addTracksLoop_cons]
    simp only []
    rw [ih (batchIdx + 1) (f batchIdx) (reqs ++ [trackUris ((t :: ts).take 100)])]
    rw [chunks100]
    by_cases hzero : ((t :: ts).drop 100).length = 0
    · have hnil : (t :: ts).drop 100 = [] := List.length_eq_zero.mp hzero
      rw [hnil]
      simp [chunks100, List.append_assoc]
    · rw [if_neg hzero, if_neg (by simp : ¬ (t :: ts).length = 0)]
      refine congrArg₂ AddTracksOutcome.mk ?_ ?_
      · have harith : batchIdx + 1 + (chunks100 ((t :: ts).drop 100)).length - 1
            = batchIdx + ((t :: ts).take 100 :: chunks100 ((t :: ts).drop 100)).length - 1 := by
          simp only [List.length_cons]
          omega
        rw [harith]
      · simp [List.append_assoc]

/-- When the server accepts the first `j` batches and fails on batch `j`
(by transport or by response decode), the loop stops there: it has issued
exactly `j + 1` POSTs and returns the error of the failing batch with the zero
response, forgetting every earlier snapshot id. -/
theorem addTracksLoop_abort (srv : Nat → BatchResult) (msg : String) :
    ∀ (ts : List Track) (j batchIdx : Nat)
      (last : AddTrackToPlaylistResponse) (reqs : List (List String)),
      (∀ k, k < j → ∃ r, srv (batchIdx + k) = .accepted r) →
      (srv (batchIdx + j) = .transportError msg ∨
        srv (batchIdx + j) = .decodeFailure msg) →
      j < (chunks100 ts).length →
      (addTracksLoop srv ts batchIdx last reqs).result = .error msg ∧
        (addTracksLoop srv ts batchIdx last reqs).requests.length =
          reqs.length + j + 1 := by
  intro ts
  induction ts using chunks100.induct with
  | case1 =>
    intro j batchIdx last reqs _ _ hj
    rw [chunks100] at hj
    simp at hj
  | case2 t ts ih =>
    intro j batchIdx last reqs hacc hfail hj
    rw [addTracksLoop_cons]
    cases j with
    | zero =>
      rcases hfail with h | h
      · rw [Nat.add_zero] at h
        rw [h]
        simp
      · rw [Nat.add_zero] at h
        rw [h]
        simp
    | succ j2 =>
      obtain ⟨r, hr⟩ := hacc 0 (Nat.succ_pos j2)
      rw [Nat.add_zero] at hr
      rw [hr]
      have hstep := ih j2 (batchIdx + 1) r (reqs ++ [trackUris ((t :: ts).take 100)])
        (by
          intro k hk
          obtain ⟨r2, hr2⟩ := hacc (k + 1) (Nat.succ_lt_succ hk)
          exact ⟨r2, by rw [show batchIdx + 1 + k = batchIdx + (k + 1) from by omega]; exact hr2⟩)
        (by rw [show batchIdx + 1 + j2 = batchIdx + (j2 + 1) from by omega]; exact hfail)
        (by
          rw [chunks100] at hj
          simpa using Nat.lt_of_succ_lt_succ hj)
      refine ⟨hstep.1, ?_⟩
      rw [hstep.2]
      simp
      omega

/- ### Concrete sample data for witnesses and counterexamples -/

def sampleOwner : PlaylistOwner := ⟨"", "owner1"⟩

def samplePlaylist : Playlist := ⟨"", "p1", "Mix One", sampleOwner⟩

def samplePlaylist2 : Playlist := ⟨"", "p2", "Mix Two", sampleOwner⟩

def sampleAlbum : Album := ⟨"album", "", "a1", "Album"⟩

def sampleTrack : Track := ⟨"t1", "", "Song", sampleAlbum, []⟩

/- ### The claims -/

/-- C1: for every server page sequence in which every page decodes
successfully (a consistent server: a single reported total `T`, with the
cumulative item count strictly below `T` before the final page and
exactly `T` at it), `GetUserPlaylists` and `GetTracksForPlaylist` return
the items in server order, concatenated across pages processed in
ascending offset order (offsets 0, 5, 10, …), and the returned
length of the returned collection equals the server-reported total. -/
theorem claim_C1_paginated_fetch_order_and_total :
    (∀ (envs : List PlaylistResponse) (T : Int),
      envs ≠ [] →
      (∀ e ∈ envs, e.total = T) →
      (∀ j, j + 1 < envs.length →
        ((playlistItemsOf (envs.take (j + 1))).length : Int) < T) →
      ((playlistItemsOf envs).length : Int) = T →
      GetUserPlaylists (okPages envs) =
        .success (playlistItemsOf envs)
          ((List.range envs.length).map fun k => 5 * k) ∧
      ((playlistItemsOf envs).length : Int) = T) ∧
    (∀ (envs : List TracklistResponse) (T : Int),
      envs ≠ [] →
      (∀ e ∈ envs, e.total = T) →
      (∀ j, j + 1 < envs.length →
        ((trackItemsOf (envs.take (j + 1))).length : Int) < T) →
      ((trackItemsOf envs).length : Int) = T →
      GetTracksForPlaylist (okPages envs) =
        .success (trackItemsOf envs)
          ((List.range envs.length).map fun k => 5 * k) ∧
      ((trackItemsOf envs).length : Int) = T) := by
  constructor
  · intro envs T hne htot hlt hsum
    refine ⟨?_, hsum⟩
    have h := getUserPlaylistsLoop_ok T envs [] 0 [] hne htot
      (by intro j hj; simpa using hlt j hj)
      (by simpa using hsum)
    rw [GetUserPlaylists, h]
    rw [offsetsFrom_eq_range]
    simp
  · intro envs T hne htot hlt hsum
    refine ⟨?_, hsum⟩
    have h := getTracksLoop_ok T envs [] 0 [] hne htot
      (by intro j hj; simpa using hlt j hj)
      (by simpa using hsum)
    rw [GetTracksForPlaylist, h]
    rw [offsetsFrom_eq_range]
    simp

/-- Witness for C1: a two-page playlist listing with total 2 and a
one-page track listing with total 1, both fetched exactly. -/
theorem claim_C1_witness :
    GetUserPlaylists (okPages [⟨"", 5, 0, "", "", 2, [samplePlaylist]⟩,
        ⟨"", 5, 5, "", "", 2, [samplePlaylist2]⟩]) =
      .success [samplePlaylist, samplePlaylist2] [0, 5] ∧
    GetTracksForPlaylist (okPages [⟨"", [⟨sampleTrack⟩], 5, 0, "", "", 1⟩]) =
      .success [sampleTrack] [0] := by
  constructor
  · have h := (claim_C1_paginated_fetch_order_and_total.1
      [⟨"", 5, 0, "", "", 2, [samplePlaylist]⟩,
        ⟨"", 5, 5, "", "", 2, [samplePlaylist2]⟩] 2
      (by simp)
      (by decide)
      (by
        intro j hj
        have hj2 : j + 1 < 2 := by simpa using hj
        have hj0 : j = 0 := by omega
        subst hj0
        decide)
      (by decide)).1
    simpa using h
  · have h := (claim_C1_paginated_fetch_order_and_total.2
      [⟨"", [⟨sampleTrack⟩], 5, 0, "", "", 1⟩] 1
      (by simp)
      (by decide)
      (by intro j hj; simp at hj)
      (by decide)).1
    simpa using h

/-- C6: a transport error on any page request — at any reachable loop
state, with any items already accumulated — aborts the fetch immediately
and returns a fetch error that carries no collection (the Go functions
return `nil, err`), discarding every accumulated item; in particular at
the top level of both fetch functions. -/
theorem claim_C6_transport_error_aborts :
    (∀ (msg : String) (rest : List (PageResult PlaylistResponse))
      (acc : List Playlist) (offset : Nat) (reqs : List Nat),
      getUserPlaylistsLoop 5 (.transportError msg :: rest) acc offset reqs =
        .fetchError msg (reqs ++ [offset])) ∧
    (∀ (msg : String) (rest : List (PageResult TracklistResponse))
      (acc : List Track) (offset : Nat) (reqs : List Nat),
      getTracksLoop 5 (.transportError msg :: rest) acc offset reqs =
        .fetchError msg (reqs ++ [offset])) ∧
    (∀ (msg : String) (rest : List (PageResult PlaylistResponse)),
      GetUserPlaylists (.transportError msg :: rest) = .fetchError msg [0]) ∧
    (∀ (msg : String) (rest : List (PageResult TracklistResponse)),
      GetTracksForPlaylist (.transportError msg :: rest) = .fetchError msg [0]) := by
  refine ⟨fun msg rest acc offset reqs => rfl,
    fun msg rest acc offset reqs => rfl, fun msg rest => rfl, fun msg rest => rfl⟩

/-- C7 counterexample: a decode-failing page whose partial fill holds a
nonempty items list — the documented `json.Unmarshal` behavior on a type
error, e.g. a body whose total decodes to 1 and whose items array holds
one element with a mistyped id field, decoded as a zero-valued element.
The loop appends that item, so the returned collection is nonempty,
contradicting the claim that a decode failure appends nothing to the
accumulator. -/
theorem claim_C7_counterexample :
    GetUserPlaylists [.page false ⟨"", 5, 0, "", "", 1, [Playlist.zero]⟩] =
      .success [Playlist.zero] [0] ∧
    GetTracksForPlaylist
        [.page false ⟨"", [⟨⟨"", "", "", ⟨"", "", "", ""⟩, []⟩⟩], 5, 0, "", "", 1⟩] =
      .success [⟨"", "", "", ⟨"", "", "", ""⟩, []⟩] [0] := by
  constructor <;> decide

/-- C7 amended: a page whose envelope fails to decode surfaces no error —
the failure is only logged — and the iteration proceeds with whatever
envelope state the failed decode left, exactly as if that state had
decoded successfully: its items (possibly none, possibly some, under a
partial fill) are appended and its total drives the termination check;
in the particular case that the failed decode leaves the zero-valued
envelope, nothing is appended and no error is surfaced. -/
theorem claim_C7_decode_failure_is_lenient :
    (∀ (env : PlaylistResponse) (rest : List (PageResult PlaylistResponse))
      (acc : List Playlist) (offset : Nat) (reqs : List Nat),
      getUserPlaylistsLoop 5 (.page false env :: rest) acc offset reqs =
        getUserPlaylistsLoop 5 (.page true env :: rest) acc offset reqs ∧
      getUserPlaylistsLoop 5 (.page false PlaylistResponse.zero :: rest)
          acc offset reqs =
        .success acc (reqs ++ [offset])) ∧
    (∀ (env : TracklistResponse) (rest : List (PageResult TracklistResponse))
      (acc : List Track) (offset : Nat) (reqs : List Nat),
      getTracksLoop 5 (.page false env :: rest) acc offset reqs =
        getTracksLoop 5 (.page true env :: rest) acc offset reqs ∧
      getTracksLoop 5 (.page false TracklistResponse.zero :: rest)
          acc offset reqs =
        .success acc (reqs ++ [offset])) := by
  constructor
  · intro env rest acc offset reqs
    refine ⟨rfl, ?_⟩
    rw [getUserPlaylistsLoop_page]
    simp [PlaylistResponse.zero]
  · intro env rest acc offset reqs
    refine ⟨rfl, ?_⟩
    rw [getTracksLoop_page]
    simp [TracklistResponse.zero]

/-- C8 counterexample: a server on which every page fails to decode with
the zero-valued left-over envelope (the partial fill of a syntax error).
The claim says the loop never terminates whenever every page fails to
decode; on this run both fetches terminate after exactly one request,
returning an empty collection with no error, because the zero envelope
reports total 0, which the empty accumulation already meets. -/
theorem claim_C8_counterexample :
    GetUserPlaylists (List.replicate 3 (.page false PlaylistResponse.zero)) =
      .success [] [0] ∧
    GetTracksForPlaylist (List.replicate 3 (.page false TracklistResponse.zero)) =
      .success [] [0] := by
  constructor <;> decide

/-- Divergence of the playlist pagination loop under decode failures that
leave a positive total and no items: the loop consumes every supplied
page and is still running (`ranOut`), for any number of pages. -/
theorem getUserPlaylistsLoop_diverges (env : PlaylistResponse)
    (hitems : env.items = []) :
    ∀ (n : Nat) (acc : List Playlist) (offset : Nat) (reqs : List Nat),
      (acc.length : Int) < env.total →
      getUserPlaylistsLoop 5 (List.replicate n (.page false env)) acc offset reqs =
        .ranOut acc (reqs ++ offsetsFrom offset n) := by
  intro n
  induction n with
  | zero =>
    intro acc offset reqs _
    simp [getUserPlaylistsLoop, offsetsFrom]
  | succ m ih =>
    intro acc offset reqs hlt
    rw [List.replicate_succ, getUserPlaylistsLoop_page, hitems, List.append_nil]
    rw [if_neg (by omega)]
    rw [ih acc (offset + 5) (reqs ++ [offset]) hlt]
    simp [offsetsFrom]

/-- Divergence of the tracklist pagination loop under decode failures that
leave a positive total and no items, as for the playlist loop. -/
theorem getTracksLoop_diverges (env : TracklistResponse)
    (hitems : env.items = []) :
    ∀ (n : Nat) (acc : List Track) (offset : Nat) (reqs : List Nat),
      (acc.length : Int) < env.total →
      getTracksLoop 5 (List.replicate n (.page false env)) acc offset reqs =
        .ranOut acc (reqs ++ offsetsFrom offset n) := by
  intro n
  induction n with
  | zero =>
    intro acc offset reqs _
    simp [getTracksLoop, offsetsFrom]
  | succ m ih =>
    intro acc offset reqs hlt
    rw [List.replicate_succ, getTracksLoop_page, hitems]
    simp only [List.map_nil, List.append_nil]
    rw [if_neg (by omega)]
    rw [ih acc (offset + 5) (reqs ++ [offset]) hlt]
    simp [offsetsFrom]

/-- C8 amended: when every page fails to decode leaving a positive
reported total and no items (the partial fill of a type error, e.g. a
decodable `total` next to a malformed `items` field), the pagination
loop never terminates — the reported total is never reached: for every
finite number `n` of such pages the loop consumes all of them at
ascending offsets and is still running.  (A decode failure that leaves
the zero-valued envelope instead terminates the loop at once, as the
counterexample shows, so the original unconditional claim fails.) -/
theorem claim_C8_positive_total_decode_failures_diverge :
    (∀ (n : Nat) (env : PlaylistResponse),
      env.items = [] → 0 < env.total →
      GetUserPlaylists (List.replicate n (.page false env)) =
        .ranOut [] ((List.range n).map fun k => 5 * k)) ∧
    (∀ (n : Nat) (env : TracklistResponse),
      env.items = [] → 0 < env.total →
      GetTracksForPlaylist (List.replicate n (.page false env)) =
        .ranOut [] ((List.range n).map fun k => 5 * k)) := by
  constructor
  · intro n env hitems hpos
    rw [GetUserPlaylists,
      getUserPlaylistsLoop_diverges env hitems n [] 0 [] (by simpa using hpos)]
    rw [offsetsFrom_eq_range]
    simp
  · intro n env hitems hpos
    rw [GetTracksForPlaylist,
      getTracksLoop_diverges env hitems n [] 0 [] (by simpa using hpos)]
    rw [offsetsFrom_eq_range]
    simp

/-- Witness for C8: three all-failing pages whose partial fill reports
total 7 with no items — the loops have consumed all three pages at
offsets 0, 5, 10 and are still running. -/
theorem claim_C8_witness :
    GetUserPlaylists (List.replicate 3 (.page false ⟨"", 0, 0, "", "", 7, []⟩)) =
      .ranOut [] ((List.range 3).map fun k => 5 * k) ∧
    GetTracksForPlaylist (List.replicate 3 (.page false ⟨"", [], 0, 0, "", "", 7⟩)) =
      .ranOut [] ((List.range 3).map fun k => 5 * k) :=
  ⟨claim_C8_positive_total_decode_failures_diverge.1 3 ⟨"", 0, 0, "", "", 7, []⟩
      rfl (by norm_num),
    claim_C8_positive_total_decode_failures_diverge.2 3 ⟨"", [], 0, 0, "", "", 7⟩
      rfl (by norm_num)⟩

/-- C9: when the server reports total 0 (with the matching empty items
list), both paginated fetches return an empty collection with no error
after issuing exactly one GET request, at offset 0. -/
theorem claim_C9_total_zero_one_request :
    (∀ (e : PlaylistResponse) (rest : List (PageResult PlaylistResponse)),
      e.total = 0 → e.items = [] →
      GetUserPlaylists (.page true e :: rest) = .success [] [0]) ∧
    (∀ (e : TracklistResponse) (rest : List (PageResult TracklistResponse)),
      e.total = 0 → e.items = [] →
      GetTracksForPlaylist (.page true e :: rest) = .success [] [0]) := by
  constructor
  · intro e rest htot hitems
    rw [GetUserPlaylists, getUserPlaylistsLoop_page]
    simp [htot, hitems]
  · intro e rest htot hitems
    rw [GetTracksForPlaylist, getTracksLoop_page]
    simp [htot, hitems]

/-- Witness for C9: the concrete zero-total page. -/
theorem claim_C9_witness :
    GetUserPlaylists [.page true ⟨"", 5, 0, "", "", 0, []⟩] = .success [] [0] ∧
    GetTracksForPlaylist [.page true ⟨"", [], 5, 0, "", "", 0⟩] =
      .success [] [0] := by
  exact ⟨claim_C9_total_zero_one_request.1 ⟨"", 5, 0, "", "", 0, []⟩ [] rfl rfl,
    claim_C9_total_zero_one_request.2 ⟨"", [], 5, 0, "", "", 0⟩ [] rfl rfl⟩

/-- The batching loop with no tracks left issues no POST and returns the
response it carries. -/
theorem addTracksLoop_nil (srv : Nat → BatchResult) (batchIdx : Nat)
    (last : AddTrackToPlaylistResponse) (reqs : List (List String)) :
    addTracksLoop srv [] batchIdx last reqs = ⟨.ok last, reqs⟩ := by
  rw [addTracksLoop]

/-- Unfolding of the batch slicing on a nonempty list. -/
theorem chunks100_step (l : List Track) (h1 : l ≠ []) :
    chunks100 l = l.take 100 :: chunks100 (l.drop 100) := by
  cases l with
  | nil => exact absurd rfl h1
  | cons t ts => rw [chunks100]

/-- A nonempty list of at most 100 tracks is a single batch. -/
theorem chunks100_short (l : List Track) (h1 : l ≠ []) (h2 : l.length ≤ 100) :
    chunks100 l = [l] := by
  rw [chunks100_step l h1, List.drop_eq_nil_of_le h2, List.take_of_length_le h2]
  rw [chunks100]

/-- C4: on a server that accepts every batch, `AddTracksToPlaylist` over a
track list of length `N` issues exactly `⌈N/100⌉ = (N + 99) / 100` write
requests, the i-th carrying the URIs of the i-th consecutive batch (the
batches partition the list in order and each holds at most 100 tracks),
each URI of the form `spotify:track:<id>` for a track of the list; and
for `N = 0` it issues zero requests and returns the zero-valued result
with no error. -/
theorem claim_C4_batching_shape (f : Nat → AddTrackToPlaylistResponse)
    (tracks : List Track) :
    (AddTracksToPlaylist (fun k => .accepted (f k)) tracks).requests =
      (chunks100 tracks).map trackUris ∧
    (AddTracksToPlaylist (fun k => .accepted (f k)) tracks).requests.length =
      (tracks.length + 99) / 100 ∧
    (chunks100 tracks).flatten = tracks ∧
    (∀ r ∈ (AddTracksToPlaylist (fun k => .accepted (f k)) tracks).requests,
      r.length ≤ 100 ∧ ∀ u ∈ r, ∃ t ∈ tracks, u = "spotify:track:" ++ t.id) ∧
    (tracks = [] →
      AddTracksToPlaylist (fun k => .accepted (f k)) tracks =
        ⟨.ok AddTrackToPlaylistResponse.zero, []⟩) := by
  have h := addTracksLoop_allOk f tracks 0 AddTrackToPlaylistResponse.zero []
  have hreq : (AddTracksToPlaylist (fun k => .accepted (f k)) tracks).requests =
      (chunks100 tracks).map trackUris := by
    rw [AddTracksToPlaylist, h]
    simp
  refine ⟨hreq, ?_, chunks100_flatten tracks, ?_, ?_⟩
  · rw [hreq]
    simp [chunks100_length]
  · intro r hr
    rw [hreq] at hr
    obtain ⟨c, hc, hcr⟩ := List.mem_map.mp hr
    subst hcr
    refine ⟨?_, ?_⟩
    · have hc100 := chunks100_mem_length tracks c hc
      simpa [trackUris] using hc100
    · intro u hu
      rw [trackUris] at hu
      obtain ⟨t, ht, hut⟩ := List.mem_map.mp hu
      exact ⟨t, chunks100_mem_subset tracks c hc t ht, hut.symm⟩
  · intro h0
    subst h0
    rw [AddTracksToPlaylist, addTracksLoop_nil]

/-- Witness for C4: one track, one request of one well-formed URI. -/
theorem claim_C4_witness :
    (trackUris [sampleTrack]).length ≤ 100 ∧
    (AddTracksToPlaylist (fun _ => .accepted ⟨"s"⟩) [sampleTrack]).requests.length
      = ([sampleTrack].length + 99) / 100 := by
  have h := claim_C4_batching_shape (fun _ => ⟨"s"⟩) [sampleTrack]
  refine ⟨(h.2.2.2.1 (trackUris [sampleTrack]) ?_).1, h.2.1⟩
  rw [h.1, chunks100_short [sampleTrack] (by simp) (by simp)]
  simp

/-- A sample track with id `<k>`. -/
def trk (k : Nat) : Track := ⟨Nat.repr k, "", "", sampleAlbum, []⟩

/-- A 150-track source playlist. -/
def tracks150 : List Track := (List.range 150).map trk

/-- The world serving the 150-track duplication: metadata and create
succeed, the single track page returns all 150 tracks, and batch `k` is
accepted with snapshot id `snap<k>`. -/
def world150 : World :=
  ⟨.page true ⟨"", "src", "Source", ⟨"", "owner1"⟩⟩,
   [.page true ⟨"", tracks150.map (fun t => ⟨t⟩), 5, 0, "", "", 150⟩],
   .page true ⟨"", "dst", "Copy of Source", ⟨"", "creator"⟩⟩,
   fun k => .accepted ⟨"snap" ++ Nat.repr k⟩⟩

theorem tracks150_length : tracks150.length = 150 := by
  simp [tracks150]

theorem tracks150_ne_nil : tracks150 ≠ [] := by
  intro hh
  have := tracks150_length
  rw [hh] at this
  simp at this

theorem tracks150_drop_length : (tracks150.drop 100).length = 50 := by
  rw [List.length_drop, tracks150_length]

theorem tracks150_chunks :
    chunks100 tracks150 = [tracks150.take 100, tracks150.drop 100] := by
  have hdne : tracks150.drop 100 ≠ [] := by
    intro hh
    have := tracks150_drop_length
    rw [hh] at this
    simp at this
  rw [chunks100_step tracks150 tracks150_ne_nil,
    chunks100_short (tracks150.drop 100) hdne (by rw [tracks150_drop_length]; omega)]

theorem world150_tracks_fetch :
    GetTracksForPlaylist world150.trackPages = .success tracks150 [0] := by
  have hpages : world150.trackPages =
      [.page true ⟨"", tracks150.map (fun t => ⟨t⟩), 5, 0, "", "", 150⟩] := rfl
  rw [hpages, GetTracksForPlaylist, getTracksLoop_page]
  rw [if_pos (by simp [tracks150_length])]
  simp only [List.nil_append, List.map_map]
  have hcomp : ((fun item => item.track) ∘ fun t => (⟨t⟩ : PlaylistTrack)) =
      id := by
    funext t
    rfl
  rw [hcomp, List.map_id]

theorem world150_add_tracks :
    AddTracksToPlaylist world150.batchServer tracks150 =
      ⟨.ok ⟨"snap" ++ Nat.repr 1⟩,
       [trackUris (tracks150.take 100), trackUris (tracks150.drop 100)]⟩ := by
  have hsrv : world150.batchServer =
      fun k => .accepted ⟨"snap" ++ Nat.repr k⟩ := rfl
  rw [hsrv, AddTracksToPlaylist,
    addTracksLoop_allOk (fun k => ⟨"snap" ++ Nat.repr k⟩) tracks150 0
      AddTrackToPlaylistResponse.zero [], tracks150_chunks]
  rw [tracks150_length]
  norm_num

/-- Evaluation of the 150-track duplication run: one create call, two
write calls (the 100-track batch then the 50-track batch), and the
snapshot id of the second batch is the one reported. -/
theorem dup150_eval :
    duplicatePlaylist world150 =
      some ⟨[⟨"Copy of " ++ "Source", false⟩],
        [trackUris (tracks150.take 100), trackUris (tracks150.drop 100)],
        some ("snap" ++ Nat.repr 1)⟩ := by
  have hinfo : GetPlaylistInfo world150.playlistInfoResp =
      .ok ⟨"", "src", "Source", ⟨"", "owner1"⟩⟩ := rfl
  rw [duplicatePlaylist, hinfo]
  simp only []
  rw [world150_tracks_fetch]
  simp only [duplicateWriteSteps]
  rw [world150_add_tracks]
  simp [CreatePlaylist]

/-- C5: `AddTracksToPlaylist` aborts at the first failing batch `j`,
returning the error of that batch with the zero-valued (empty) result —
discarding the snapshot ids of the `j` previously accepted batches —
after issuing exactly `j + 1` POSTs; when every batch succeeds, the
returned value is exactly the snapshot response of the last batch; and
concretely a 150-track duplication issues one create call and two write
calls of 100 and 50 tracks, reporting the snapshot id of the second call. -/
theorem claim_C5_abort_and_last_snapshot :
    (∀ (srv : Nat → BatchResult) (tracks : List Track) (j : Nat) (msg : String),
      (∀ k, k < j → ∃ r, srv k = .accepted r) →
      (srv j = .transportError msg ∨ srv j = .decodeFailure msg) →
      j < (chunks100 tracks).length →
      (AddTracksToPlaylist srv tracks).result = .error msg ∧
        (AddTracksToPlaylist srv tracks).requests.length = j + 1) ∧
    (∀ (f : Nat → AddTrackToPlaylistResponse) (tracks : List Track),
      tracks ≠ [] →
      (AddTracksToPlaylist (fun k => .accepted (f k)) tracks).result =
        .ok (f ((chunks100 tracks).length - 1))) ∧
    (duplicatePlaylist world150 =
      some ⟨[⟨"Copy of Source", false⟩],
        [trackUris (tracks150.take 100), trackUris (tracks150.drop 100)],
        some "snap1"⟩ ∧
      (tracks150.take 100).length = 100 ∧ (tracks150.drop 100).length = 50) := by
  refine ⟨?_, ?_, ?_, ?_, tracks150_drop_length⟩
  · intro srv tracks j msg hacc hfail hj
    have h := addTracksLoop_abort srv msg tracks j 0
      AddTrackToPlaylistResponse.zero []
      (by intro k hk; simpa using hacc k hk)
      (by simpa using hfail)
      hj
    rw [AddTracksToPlaylist]
    refine ⟨h.1, ?_⟩
    rw [h.2]
    simp
  · intro f tracks hne
    have h := addTracksLoop_allOk f tracks 0 AddTrackToPlaylistResponse.zero []
    rw [AddTracksToPlaylist, h]
    simp only [List.length_eq_zero]
    rw [if_neg hne]
    simp
  · rw [dup150_eval]
    rfl
  · rw [List.length_take, tracks150_length]
    omega

/-- Witness for C5: a first-batch transport failure aborts with that error
after one POST; an all-accepting server returns the last (only)
snapshot. -/
theorem claim_C5_witness :
    (AddTracksToPlaylist (fun _ => .transportError "boom") [sampleTrack]).result =
      .error "boom" ∧
    (AddTracksToPlaylist (fun _ => .transportError "boom")
      [sampleTrack]).requests.length = 1 ∧
    (AddTracksToPlaylist (fun _ => .accepted ⟨"s"⟩) [sampleTrack]).result =
      .ok ⟨"s"⟩ := by
  have hone : (chunks100 [sampleTrack]).length = 1 := by
    rw [chunks100_short [sampleTrack] (by simp) (by simp)]
    rfl
  have h1 := claim_C5_abort_and_last_snapshot.1 (fun _ => .transportError "boom")
    [sampleTrack] 0 "boom" (fun k hk => absurd hk (Nat.not_lt_zero k))
    (Or.inl rfl) (by rw [hone]; omega)
  have h2 := claim_C5_abort_and_last_snapshot.2.1 (fun _ => ⟨"s"⟩) [sampleTrack]
    (by simp)
  rw [hone] at h2
  exact ⟨h1.1, h1.2, h2⟩

/-- A world where fetching the source tracks fails with a transport
error while everything else would succeed. -/
def worldFetchFail : World :=
  ⟨.page true ⟨"", "src", "Source", ⟨"", "owner1"⟩⟩,
   [.transportError "network down"],
   .page true ⟨"", "dst", "Copy of Source", ⟨"", "creator"⟩⟩,
   fun k => .accepted ⟨"snap" ++ Nat.repr k⟩⟩

/-- A world where creating the destination playlist fails with a
transport error while the source holds one track. -/
def worldCreateFail : World :=
  ⟨.page true ⟨"", "src", "Source", ⟨"", "owner1"⟩⟩,
   [.page true ⟨"", [⟨sampleTrack⟩], 5, 0, "", "", 1⟩],
   .transportError "create failed",
   fun k => .accepted ⟨"snap" ++ Nat.repr k⟩⟩

theorem worldFetchFail_eval :
    duplicatePlaylist worldFetchFail =
      some ⟨[⟨"Copy of " ++ "Source", false⟩], [], some ""⟩ := by
  have hinfo : GetPlaylistInfo worldFetchFail.playlistInfoResp =
      .ok ⟨"", "src", "Source", ⟨"", "owner1"⟩⟩ := rfl
  have htr : GetTracksForPlaylist worldFetchFail.trackPages =
      .fetchError "network down" [0] := rfl
  have hadd : AddTracksToPlaylist worldFetchFail.batchServer [] =
      ⟨.ok AddTrackToPlaylistResponse.zero, []⟩ := by
    rw [AddTracksToPlaylist, addTracksLoop_nil]
  rw [duplicatePlaylist, hinfo]
  simp only []
  rw [htr]
  simp only [duplicateWriteSteps]
  rw [hadd]
  simp [CreatePlaylist, AddTrackToPlaylistResponse.zero]

theorem worldCreateFail_eval :
    duplicatePlaylist worldCreateFail =
      some ⟨[⟨"Copy of " ++ "Source", false⟩],
        [trackUris [sampleTrack]], some ("snap" ++ Nat.repr 0)⟩ := by
  have hinfo : GetPlaylistInfo worldCreateFail.playlistInfoResp =
      .ok ⟨"", "src", "Source", ⟨"", "owner1"⟩⟩ := rfl
  have htr : GetTracksForPlaylist worldCreateFail.trackPages =
      .success [sampleTrack] [0] := by decide
  have hsrv : worldCreateFail.batchServer =
      fun k => .accepted ⟨"snap" ++ Nat.repr k⟩ := rfl
  have hadd : AddTracksToPlaylist worldCreateFail.batchServer [sampleTrack] =
      ⟨.ok ⟨"snap" ++ Nat.repr 0⟩, [trackUris [sampleTrack]]⟩ := by
    rw [hsrv, AddTracksToPlaylist,
      addTracksLoop_allOk (fun k => ⟨"snap" ++ Nat.repr k⟩) [sampleTrack] 0
        AddTrackToPlaylistResponse.zero [],
      chunks100_short [sampleTrack] (by simp) (by simp)]
    simp
  rw [duplicatePlaylist, hinfo]
  simp only []
  rw [htr]
  simp only [duplicateWriteSteps]
  rw [hadd]
  simp [CreatePlaylist]

/-- C2 (evaluation at the failing inputs): the duplication workflow does
NOT stop at a failed source-track fetch or a failed destination-playlist
creation.  After a track-fetch transport error the handler still issues
the create call and reports the empty snapshot id; after a create
failure it still issues the track-write POST and reports its snapshot
id.  Only a failure of the metadata step (third conjunct) stops the
workflow as the claim describes. -/
theorem claim_C2_failed_steps_do_not_stop_workflow :
    duplicatePlaylist worldFetchFail =
      some ⟨[⟨"Copy of Source", false⟩], [], some ""⟩ ∧
    duplicatePlaylist worldCreateFail =
      some ⟨[⟨"Copy of Source", false⟩], [["spotify:track:t1"]], some "snap0"⟩ ∧
    (∀ (msg : String) (tp : List (PageResult TracklistResponse))
      (cr : PageResult Playlist) (bs : Nat → BatchResult),
      duplicatePlaylist ⟨.transportError msg, tp, cr, bs⟩ =
        some ⟨[], [], none⟩) := by
  refine ⟨?_, ?_, fun msg tp cr bs => rfl⟩
  · rw [worldFetchFail_eval]
    rfl
  · rw [worldCreateFail_eval]
    decide

/-- C3 (evaluation of the token-exchange error paths): a transport error
on the POST does not produce an error return at all — the unhandled
`err` leads to a nil-response dereference; a body that fails to decode
returns that decode error with no token; a nil body returns the
empty-response error; a decoded body returns the token. -/
theorem claim_C3_token_exchange_error_paths :
    GetAccessToken (.error "connection refused") = .nilDeref ∧
    (∀ msg, GetAccessToken (.ok (.bytes (.error msg))) = .failure msg) ∧
    (∀ t, GetAccessToken (.ok (.bytes (.ok t))) = .token t) ∧
    GetAccessToken (.ok .nilBody) = .failure "Empty response body" :=
  ⟨rfl, fun _ => rfl, fun _ => rfl, rfl⟩

/-- C10: when the response body fails to decode, `GetPlaylistInfo` and
`CreatePlaylist` surface no error: both return, with a nil error, the
struct state the failed decode left — the zero-valued playlist for a
complete decode failure, and equally any partially decoded playlist. -/
theorem claim_C10_decode_failure_not_surfaced :
    GetPlaylistInfo (.page false Playlist.zero) = .ok Playlist.zero ∧
    (∀ (env : Playlist), GetPlaylistInfo (.page false env) = .ok env) ∧
    (∀ (playlistName : String) (playlistPublic : Bool) (env : Playlist),
      (CreatePlaylist playlistName playlistPublic (.page false env)).2 =
        .ok env) :=
  ⟨rfl, fun _ => rfl, fun _ _ _ => rfl⟩
